import Mathlib

/-!
A verification development for the CatieCli backend's Antigravity credential
management routes.  The definitions below are a shallow embedding of the
Python handlers in `backend/app/routers/antigravity_manage.py`,
`backend/app/routers/antigravity_oauth.py`, `backend/app/cache.py` and
`backend/app/services/auth.py`: pure data flow is kept, network calls are
replaced by explicit outcome parameters, and the encryption service (an
excluded collaborator) is passed in as a function argument.
-/

namespace CatieCli

/-- Python string slicing `s[:n]` (character based). -/
def pyTake (s : String) (n : Nat) : String := String.mk (s.data.take n)

/-- Outcome of one upstream HTTP probe: either a status code came back or the
request raised an exception with message `msg`. -/
inductive ProbeOutcome : Type
  | status (code : Nat)
  | exn (msg : String)
deriving DecidableEq, Repr

/-- Verdict a probe classification produces: the `is_valid` flag and the
`error_msg` that the caller stores into `last_error`. -/
structure Verdict where
  is_valid : Bool
  error_msg : Option String
deriving DecidableEq, Repr

/-- Probe classification used by `verify_my_antigravity_credential`
(lines 450-459) and `admin_verify_antigravity_credential` (lines 865-874) of
`antigravity_manage.py`: 200/429 are valid; 401/403 give the
authentication-failure message; any other status gives the generic message
with the code; an exception gives the transport message with the text
truncated to 30 characters. -/
def classifyProbe : ProbeOutcome → Verdict
  | .status c =>
    if c = 200 ∨ c = 429 then ⟨true, none⟩
    else if c = 401 ∨ c = 403 then ⟨false, some ("认证失败 (" ++ toString c ++ ")")⟩
    else ⟨false, some ("API 返回 " ++ toString c)⟩
  | .exn m => ⟨false, some ("请求异常: " ++ pyTake m 30)⟩

/-- Validity bit computed by the background batch path `verify_single`
(lines 952-967): `resp.status_code in [200, 429]`, an exception counts as
invalid. -/
def batchProbeValid : ProbeOutcome → Bool
  | .status c => c = 200 || c = 429
  | .exn _ => false

/-- Python truthiness of an optional string: `None` and the empty string are
falsy. -/
def truthyStr : Option String → Bool
  | none => false
  | some s => !s.isEmpty

/-- One entry of `allowedTiers` in a `loadCodeAssist` response
(`antigravity_oauth.py` lines 168-174). -/
structure TierInfo where
  isDefault : Bool
  id : Option String
deriving DecidableEq, Repr

/-- A `loadCodeAssist` (discovery endpoint) response as consumed by
`fetch_antigravity_project_id` and `_get_onboard_tier`. -/
structure LoadResp where
  status : Nat
  currentTier : Option String
  cloudaicompanionProject : Option String
  allowedTiers : List TierInfo
deriving DecidableEq, Repr

/-- The `cloudaicompanionProject` field of an `onboardUser` completion
payload: a bare string, an object with an optional `id` field (an absent
field defaults to the empty object, i.e. `pobj none`), or something else. -/
inductive ProjField : Type
  | pstr (s : String)
  | pobj (id : Option String)
  | pother
deriving DecidableEq, Repr

/-- One `onboardUser` (provisioning endpoint) response. -/
structure OnboardResp where
  status : Nat
  done : Bool
  project : ProjField
deriving DecidableEq, Repr

/-- Project-id extraction from a completion payload
(`antigravity_oauth.py` lines 124-136): a dict contributes its `id` field, a
string contributes itself, anything else contributes `None`; the extracted
value is then used only if truthy. -/
def extractProject : ProjField → Option String
  | .pstr s => if s.isEmpty then none else some s
  | .pobj (some s) => if s.isEmpty then none else some s
  | .pobj none => none
  | .pother => none

/-- Helper `_get_onboard_tier` (`antigravity_oauth.py` lines 151-182): on a 200
response, the first tier flagged `isDefault` supplies the tier id, otherwise
`"LEGACY"`; on any other status the function returns `None`. -/
def getOnboardTier (r : LoadResp) : Option String :=
  if r.status = 200 then
    match r.allowedTiers.find? (·.isDefault) with
    | some t => t.id
    | none => some "LEGACY"
  else none

/-- The `for attempt in range(5)` polling loop of
`fetch_antigravity_project_id` (`antigravity_oauth.py` lines 117-144).
The first component is the returned project id, the second the number of
provisioning calls made, the third the seconds slept.  Fuel is the number of
remaining loop iterations; each iteration consumes the next response.  A
non-200 response or a completion without a truthy project id breaks out of
the loop. -/
def onboardPoll : Nat → List OnboardResp → Option String × Nat × Nat
  | 0, _ => (none, 0, 0)
  | _ + 1, [] => (none, 0, 0)
  | n + 1, r :: rest =>
    if r.status = 200 then
      if r.done then
        match extractProject r.project with
        | some pid => (some pid, 1, 0)
        | none => (none, 1, 0)
      else
        let t := onboardPoll n rest
        (t.1, t.2.1 + 1, t.2.2 + 2)
    else (none, 1, 0)

/-- Trace of one run of the project-id resolver: the result, the number of
calls made to the provisioning endpoint, and the total seconds slept. -/
structure ResolveTrace where
  result : Option String
  onboardCalls : Nat
  sleepSeconds : Nat
deriving DecidableEq, Repr

/-- Resolver `fetch_antigravity_project_id` (`antigravity_oauth.py` lines 49-148).
`primary` is the first `loadCodeAssist` response, `tierProbe` the second one
issued by `_get_onboard_tier`, and `onboard` the stream of provisioning
responses.  Step 1 returns the primary project id only when the response is
200, `currentTier` is truthy and the project id is truthy; otherwise the
fallback provisioning protocol runs (and is skipped entirely when no tier id
can be determined). -/
def fetch_antigravity_project_id (primary tierProbe : LoadResp)
    (onboard : List OnboardResp) : ResolveTrace :=
  let step1 : Option String :=
    if primary.status = 200 ∧ truthyStr primary.currentTier = true then
      if truthyStr primary.cloudaicompanionProject = true then
        primary.cloudaicompanionProject
      else none
    else none
  match step1 with
  | some p => ⟨some p, 0, 0⟩
  | none =>
    match getOnboardTier tierProbe with
    | none => ⟨none, 0, 0⟩
    | some _ =>
      let t := onboardPoll 5 onboard
      ⟨t.1, t.2.1, t.2.2⟩

/-- The number of provisioning calls never exceeds the loop fuel. -/
lemma onboardPoll_calls_le (n : Nat) :
    ∀ l : List OnboardResp, (onboardPoll n l).2.1 ≤ n := by
  induction n with
  | zero => intro l; simp [onboardPoll]
  | succ k ih =>
    intro l
    cases l with
    | nil => simp [onboardPoll]
    | cons r rest =>
      simp only [onboardPoll]
      split
      · split
        · split <;> simp
        · have := ih rest
          simp only []
          omega
      · simp

/-- The `Credential` row (`app/models/user.py`), restricted to the fields the
routes under study read or write.  Nullable text columns are `Option String`;
secret-bearing columns hold the stored (encrypted) text. -/
structure Credential where
  id : Nat
  user_id : Nat
  name : String
  email : Option String
  refresh_token : Option String
  api_key : Option String
  client_id : Option String
  client_secret : Option String
  project_id : Option String
  credential_type : String
  is_public : Bool
  is_active : Bool
  last_error : Option String
  api_type : String
  model_tier : Option String
deriving DecidableEq, Repr

/-- Python substring test `needle in hay` (character based). -/
def strContains (hay needle : String) : Bool :=
  (List.range (hay.data.length + 1)).any
    (fun i => needle.data.isPrefixOf (hay.data.drop i))

/-- The guard `cred.last_error and ('403' in cred.last_error or '401' in
cred.last_error)` of the PATCH handler (`antigravity_manage.py` line 305):
truthy `last_error` containing `403` or `401`. -/
def errHasAuth : Option String → Bool
  | none => false
  | some s => !s.isEmpty && (strContains s "403" || strContains s "401")

/-- Result of a handler that either raises an `HTTPException` (no commit) or
commits an updated credential row. -/
inductive PatchResult : Type
  | err (status : Nat) (detail : String)
  | ok (c : Credential)
deriving DecidableEq, Repr

/-- The committed credential of a `PatchResult`, if any. -/
def PatchResult.cred : PatchResult → Option Credential
  | .err _ _ => none
  | .ok c => some c

/-- Handler `update_my_antigravity_credential` (`antigravity_manage.py` lines
301-313) after the ownership lookup succeeded: when `is_public` is supplied
and true, the handler rejects an inactive credential or one whose
`last_error` contains `403`/`401`; otherwise it stores the flag.  The
`is_active` parameter, when supplied, is then stored unconditionally. -/
def update_my_antigravity_credential (c : Credential)
    (is_public is_active : Option Bool) : PatchResult :=
  let step1 : PatchResult :=
    match is_public with
    | none => .ok c
    | some b =>
      if b && !c.is_active then .err 400 "无效凭证不能捐赠，请先检测"
      else if b && errHasAuth c.last_error then .err 400 "凭证存在认证错误，不能捐赠"
      else .ok { c with is_public := b }
  match step1 with
  | .err s d => .err s d
  | .ok c1 =>
    match is_active with
    | none => .ok c1
    | some a => .ok { c1 with is_active := a }

/-- The credential row built by the upload handler (`antigravity_manage.py`
lines 179-195): `is_public` is `is_public and is_valid` (`actual_public`),
`is_active` is the verification outcome, and `last_error` starts unset. -/
def mkUploadCred (encrypt : String → String) (uid : Nat) (email : String)
    (refresh_token : String) (token project_id client_id client_secret : Option String)
    (is_public_flag is_valid : Bool) : Credential where
  id := 0
  user_id := uid
  name := "Antigravity - " ++ email
  email := some email
  refresh_token := some (encrypt refresh_token)
  api_key := some (encrypt (token.getD ""))
  client_id := client_id.map encrypt
  client_secret := client_secret.map encrypt
  project_id := project_id
  credential_type := "oauth"
  is_public := is_public_flag && is_valid
  is_active := is_valid
  last_error := none
  api_type := "antigravity"
  model_tier := some "2.5"

/-- The new credential persisted by the OAuth callback handler
(`antigravity_oauth.py` lines 310-321 and 361-365): `is_public` is the
requested flag, and `is_active` is set to the probe verdict afterwards —
nothing couples the two. -/
def oauthNewCredential (encrypt : String → String) (uid : Nat) (email : String)
    (access_token refresh_token project_id : String)
    (is_public_req is_valid : Bool) (detected_tier : String) : Credential where
  id := 0
  user_id := uid
  name := "Antigravity - " ++ email
  email := some email
  refresh_token := some (encrypt refresh_token)
  api_key := some (encrypt access_token)
  client_id := none
  client_secret := none
  project_id := some project_id
  credential_type := "oauth"
  is_public := is_public_req
  is_active := is_valid
  last_error := none
  api_type := "antigravity"
  model_tier := some detected_tier

/-- The validity flag computed by the OAuth-callback probe
(`antigravity_oauth.py` lines 325-359): it starts `True` and is cleared only
by a 401/403 status; any other status or an exception leaves it `True`. -/
def oauthProbeValid : ProbeOutcome → Bool
  | .status c => !(c = 401 || c = 403)
  | .exn _ => true

/-- A `UsageLog` row, restricted to its identity and its nullable foreign
reference to a credential. -/
structure UsageLogRec where
  id : Nat
  credential_id : Option Nat
deriving DecidableEq, Repr

/-- The persisted store as the deletion handlers see it: credential rows
(with unique ids) and usage-log rows. -/
structure DBState where
  creds : List Credential
  logs : List UsageLogRec
deriving DecidableEq, Repr

/-- The SQL `UPDATE usage_logs SET credential_id = NULL WHERE credential_id
IN ids` applied to one row. -/
def nullifyLog (ids : List Nat) (l : UsageLogRec) : UsageLogRec :=
  match l.credential_id with
  | some c => if ids.contains c then ⟨l.id, none⟩ else l
  | none => l

/-- Membership row-predicate of the single-credential delete lookup. -/
def ownedCredPred (uid cid : Nat) (c : Credential) : Bool :=
  c.id == cid && c.user_id == uid && c.api_type == "antigravity"

/-- Handler `delete_my_antigravity_credential` (`antigravity_manage.py` lines
316-339): on a successful lookup it first nulls every usage-log reference to
the credential id, then deletes the credential row; a failed lookup raises
404 and changes nothing. -/
def delete_my_antigravity_credential (db : DBState) (uid cid : Nat) : DBState :=
  if db.creds.any (ownedCredPred uid cid) then
    ⟨db.creds.filter (fun c => !(c.id == cid)), db.logs.map (nullifyLog [cid])⟩
  else db

/-- Row predicate of the user bulk delete: owned, antigravity, inactive. -/
def inactiveOwnedPred (uid : Nat) (c : Credential) : Bool :=
  c.user_id == uid && c.api_type == "antigravity" && !c.is_active

/-- Handler `delete_my_inactive_antigravity_credentials` (`antigravity_manage.py`
lines 342-383): collects the caller's inactive antigravity credentials,
nulls all usage-log references to their ids, then deletes the rows. -/
def delete_my_inactive_antigravity_credentials (db : DBState) (uid : Nat) : DBState :=
  let victims := db.creds.filter (inactiveOwnedPred uid)
  if victims.isEmpty then db
  else
    ⟨db.creds.filter (fun c => !inactiveOwnedPred uid c),
      db.logs.map (nullifyLog (victims.map (fun c => c.id)))⟩

/-- Row predicate of the admin bulk delete: antigravity and inactive. -/
def inactivePred (c : Credential) : Bool :=
  c.api_type == "antigravity" && !c.is_active

/-- Handler `delete_inactive_antigravity_credentials` (`antigravity_manage.py` lines
725-751, admin): same shape as the user bulk delete, across all owners. -/
def delete_inactive_antigravity_credentials (db : DBState) : DBState :=
  let victims := db.creds.filter inactivePred
  if victims.isEmpty then db
  else
    ⟨db.creds.filter (fun c => !inactivePred c),
      db.logs.map (nullifyLog (victims.map (fun c => c.id)))⟩

lemma nullifyLog_id (ids : List Nat) (l : UsageLogRec) :
    (nullifyLog ids l).id = l.id := by
  cases h : l.credential_id <;> simp only [nullifyLog, h]
  split <;> rfl

lemma map_nullifyLog_ids (ids : List Nat) (logs : List UsageLogRec) :
    (logs.map (nullifyLog ids)).map (fun l => l.id) = logs.map (fun l => l.id) := by
  induction logs with
  | nil => rfl
  | cons l t ih => simp [nullifyLog_id, ih]

lemma nullifyLog_avoid {ids : List Nat} {i : Nat} (hi : ids.contains i = true)
    (l : UsageLogRec) : (nullifyLog ids l).credential_id ≠ some i := by
  cases h : l.credential_id with
  | none => simp [nullifyLog, h]
  | some c =>
    simp only [nullifyLog, h]
    by_cases hc : ids.contains c = true
    · rw [if_pos hc]
      simp
    · rw [if_neg hc, h]
      intro he
      injection he with hci
      exact hc (hci ▸ hi)

lemma contains_of_mem {a : Nat} {l : List Nat} (h : a ∈ l) : l.contains a = true :=
  List.elem_eq_true_of_mem h

/-- The application settings fields these routes read
(`app/config.py`, excluded collaborator, consumed as plain values). -/
structure AppSettings where
  google_client_id : String
  google_client_secret : String
  force_donate : Bool
deriving DecidableEq, Repr

/-- The JSON document produced by the single-credential export
(`antigravity_manage.py` lines 549-557). -/
structure ExportedCred where
  client_id : String
  client_secret : String
  refresh_token : String
  token : String
  project_id : String
  email : String
  type : String
deriving DecidableEq, Repr

/-- One JSON document inside the admin bulk-export ZIP
(`antigravity_manage.py` lines 768-775); it has no `type` field. -/
structure AdminExportedCred where
  client_id : String
  client_secret : String
  refresh_token : String
  token : String
  project_id : String
  email : String
deriving DecidableEq, Repr

/-- Handler `export_my_antigravity_credential` (`antigravity_manage.py` lines
531-559) after the ownership lookup: `client_id`/`client_secret` come from
the global settings, the remaining fields from the credential (decrypted
where stored encrypted, empty string for falsy values). -/
def export_my_antigravity_credential (decrypt : String → String)
    (s : AppSettings) (c : Credential) : ExportedCred where
  client_id := s.google_client_id
  client_secret := s.google_client_secret
  refresh_token := if truthyStr c.refresh_token then decrypt (c.refresh_token.getD "") else ""
  token := if truthyStr c.api_key then decrypt (c.api_key.getD "") else ""
  project_id := c.project_id.getD ""
  email := c.email.getD ""
  type := "authorized_user"

/-- The per-credential document built by `export_antigravity_credentials`
(`antigravity_manage.py` lines 765-777, admin ZIP export). -/
def export_antigravity_credentials_entry (decrypt : String → String)
    (s : AppSettings) (c : Credential) : AdminExportedCred where
  client_id := s.google_client_id
  client_secret := s.google_client_secret
  refresh_token := if truthyStr c.refresh_token then decrypt (c.refresh_token.getD "") else ""
  token := if truthyStr c.api_key then decrypt (c.api_key.getD "") else ""
  project_id := c.project_id.getD ""
  email := c.email.getD ""

/-- Outcome of `CredentialPool.get_access_token`: a token, a falsy result,
or a raised exception. -/
inductive TokenResult : Type
  | ok (t : String)
  | missing
  | exn (msg : String)
deriving DecidableEq, Repr

/-- The body of the `verify(credential_id)` response. -/
structure VerifyResp where
  is_valid : Bool
  project_id : Option String
  error : Option String
deriving DecidableEq, Repr

/-- The state update and response of `verify_my_antigravity_credential`
(`antigravity_manage.py` lines 386-472) after the lookup succeeded: a token
exception or missing token marks the credential inactive with a diagnostic
and commits; otherwise a truthy freshly fetched project id is stored, and
the probe classification is applied to `is_active`/`last_error` (a missing
project id is its own failure).  The pair is (committed row, response);
the row is committed before the response is returned. -/
def verify_my_antigravity_credential (c : Credential) (tok : TokenResult)
    (new_project_id : Option String) (probe : ProbeOutcome) :
    Credential × VerifyResp :=
  match tok with
  | .exn m =>
    let d := "获取 token 异常: " ++ pyTake m 50
    ({ c with is_active := false, last_error := some d }, ⟨false, none, some d⟩)
  | .missing =>
    ({ c with is_active := false, last_error := some "无法获取 access token" },
      ⟨false, none, some "无法获取 access token"⟩)
  | .ok _ =>
    let c1 := if truthyStr new_project_id then { c with project_id := new_project_id }
      else c
    if truthyStr c1.project_id then
      let v := classifyProbe probe
      ({ c1 with is_active := v.is_valid, last_error := v.error_msg },
        ⟨v.is_valid, c1.project_id, v.error_msg⟩)
    else
      ({ c1 with is_active := false, last_error := some "无 project_id" },
        ⟨false, c1.project_id, some "无 project_id"⟩)

/-- The per-credential result dict assembled by the background `verify_single`
(`antigravity_manage.py` lines 925-972); on any failure only `id` and
`is_valid=False` are present. -/
structure BatchVerifyRes where
  is_valid : Bool
  project_id : Option String
  token : Option String
deriving DecidableEq, Repr

/-- The persistence step of the verify-all background task
(`antigravity_manage.py` lines 977-988): `is_active` is always written, and
`project_id`/`api_key` only when the result carries truthy values;
`last_error` is not among the written columns. -/
def batchApplyVerdict (encrypt : String → String) (c : Credential)
    (res : BatchVerifyRes) : Credential :=
  let c1 := { c with is_active := res.is_valid }
  let c2 := if truthyStr res.project_id then { c1 with project_id := res.project_id }
    else c1
  if truthyStr res.token then { c2 with api_key := some (encrypt (res.token.getD "")) }
  else c2

lemma classifyProbe_invalid_has_msg (p : ProbeOutcome)
    (h : (classifyProbe p).is_valid = false) :
    ∃ d, (classifyProbe p).error_msg = some d := by
  cases p with
  | status c =>
    by_cases h1 : c = 200 ∨ c = 429
    · simp [classifyProbe, h1] at h
    · by_cases h2 : c = 401 ∨ c = 403
      · refine ⟨"认证失败 (" ++ toString c ++ ")", ?_⟩
        simp only [classifyProbe]
        rw [if_neg h1, if_pos h2]
      · refine ⟨"API 返回 " ++ toString c, ?_⟩
        simp only [classifyProbe]
        rw [if_neg h1, if_neg h2]
  | exn m => exact ⟨"请求异常: " ++ pyTake m 30, rfl⟩

/-- A Python value as the cache layer sees it: either an unresolved
coroutine object (one for which `callable(getattr(x, "__await__", None))`
holds) or an ordinary value. -/
inductive PyVal (α : Type) : Type
  | coro
  | val (v : α)
deriving DecidableEq, Repr

/-- The coroutine test `callable(getattr(result, "__await__", None))`. -/
def isCoro {α : Type} : PyVal α → Bool
  | .coro => true
  | .val _ => false

/-- What one call through the `cached` decorator did: the value handed to
the caller, whether a cache entry was deleted, whether the wrapped function
was re-executed, and what (if anything) was newly cached. -/
structure CachedOutcome (α : Type) : Type where
  result : PyVal α
  deleted : Bool
  recomputed : Bool
  cachedNew : Option (PyVal α)
deriving DecidableEq, Repr

/-- The wrapper produced by `cached` (`app/cache.py` lines 114-136).
`entry` is what `cache.get` returned (`none` = miss), `compute` the value of
`await func(...)`.  A cached coroutine object is deleted and the function
re-executed; a fresh result is stored only when it is not itself a
coroutine object. -/
def cachedWrapper {α : Type} (entry : Option (PyVal α)) (compute : PyVal α) :
    CachedOutcome α :=
  match entry with
  | some (.val v) => ⟨.val v, false, false, none⟩
  | some .coro => ⟨compute, true, true, if isCoro compute then none else some compute⟩
  | none => ⟨compute, false, true, if isCoro compute then none else some compute⟩

/-- What one call of `get_user_by_api_key` did. -/
structure UserLookupOutcome (α : Type) : Type where
  result : Option (PyVal α)
  deleted : Bool
  dbQueried : Bool
deriving DecidableEq, Repr

/-- Lookup `get_user_by_api_key` (`app/services/auth.py` lines 38-108): a cached
user dict is rebuilt into a `User` and returned (the rebuild of a complete
dict succeeds); a cached coroutine object is deleted and the database is
queried instead; a miss queries the database.  `dbUser` is the user the
database lookup finds, if any. -/
def get_user_by_api_key {α : Type} (entry : Option (PyVal α)) (dbUser : Option α) :
    UserLookupOutcome α :=
  match entry with
  | some (.val u) => ⟨some (.val u), false, false⟩
  | some .coro => ⟨dbUser.map .val, true, true⟩
  | none => ⟨dbUser.map .val, false, true⟩

/-- Python `a or b` on an optional string versus a default string. -/
def pyOrStr (a : Option String) (b : String) : String :=
  if truthyStr a then a.getD "" else b

/-- Status of one per-entry result of the upload handler. -/
inductive EntryStatus : Type
  | success
  | warning
  | error
  | skip
deriving DecidableEq, Repr

/-- One element of the `results` list the upload handler returns. -/
structure EntryResult where
  filename : String
  status : EntryStatus
  message : String
deriving DecidableEq, Repr

/-- One successfully JSON-decoded credential document of an upload.
`has_refresh_token` is whether the `refresh_token` key is present at all
(its value when present is `refresh_token`). -/
structure JsonCred where
  has_refresh_token : Bool
  refresh_token : String
  email : Option String
  token : Option String
  access_token : Option String
  client_id : Option String
  client_secret : Option String
  project_id : Option String
deriving DecidableEq, Repr

/-- One JSON file of an upload; `parsed = none` models a
`json.JSONDecodeError`. -/
structure UploadEntry where
  filename : String
  parsed : Option JsonCred
deriving DecidableEq, Repr

/-- The network outcomes the verification block of one upload entry
observes: the access-token fetch, the project-id fetch, and the test
probe. -/
structure VerifyEnv where
  token : TokenResult
  fetched_project : Option String
  probe : ProbeOutcome
deriving DecidableEq, Repr

/-- The verification block of the upload handler (`antigravity_manage.py`
lines 120-176): yields `(is_valid, verify_msg, project_id)` — valid only
when a token was obtained, a truthy project id is at hand, and the test
probe returned 200 or 429. -/
def verifyEntry (cd : JsonCred) (env : VerifyEnv) : Bool × String × Option String :=
  let pInit := cd.project_id.getD ""
  match env.token with
  | .exn m => (false, "⚠️ 验证失败: " ++ pyTake m 30, some pInit)
  | .missing => (false, "❌ 无法获取 access_token", some pInit)
  | .ok _ =>
    let p : Option String := if pInit = "" then env.fetched_project else some pInit
    match p with
    | none => (false, "❌ 无法获取 project_id", none)
    | some pid =>
      if pid = "" then (false, "❌ 无法获取 project_id", some pid)
      else
        match env.probe with
        | .status c =>
          if c = 200 ∨ c = 429 then
            (true, "✅ 有效 (project: " ++ pyTake pid 20 ++ "...)", some pid)
          else (false, "❌ API测试失败 (" ++ toString c ++ ")", some pid)
        | .exn m => (false, "⚠️ 验证失败: " ++ pyTake m 30, some pid)

/-- The body of the per-file loop of `upload_antigravity_credentials`
(`antigravity_manage.py` lines 84-219): malformed JSON and a missing
`refresh_token` key fail the entry; a duplicate email or duplicate encrypted
refresh token among the stored antigravity credentials skips it; otherwise
the entry is verified, the credential row is added (visible to the
duplicate checks of later entries), and the success counter increments
(status `success` when valid, `warning` otherwise). -/
def processUploadEntry (encrypt : String → String) (is_public : Bool) (uid : Nat)
    (db : List Credential) (entry : UploadEntry) (env : VerifyEnv) :
    EntryResult × List Credential × Nat :=
  match entry.parsed with
  | none => (⟨entry.filename, .error, "JSON 格式错误"⟩, db, 0)
  | some cd =>
    if !cd.has_refresh_token then
      (⟨entry.filename, .error, "缺少字段: refresh_token"⟩, db, 0)
    else
      let email := pyOrStr cd.email entry.filename
      if db.any (fun c => decide (c.email = some email ∧ c.api_type = "antigravity")) then
        (⟨entry.filename, .skip, "凭证已存在: " ++ email⟩, db, 0)
      else
        let enc := encrypt cd.refresh_token
        if db.any (fun c => decide (c.refresh_token = some enc ∧ c.api_type = "antigravity")) then
          (⟨entry.filename, .skip, "凭证token已存在: " ++ email⟩, db, 0)
        else
          let v := verifyEntry cd env
          let tokenStr := pyOrStr cd.token (cd.access_token.getD "")
          let cred := mkUploadCred encrypt uid email cd.refresh_token (some tokenStr)
            v.2.2 cd.client_id cd.client_secret is_public v.1
          let statusMsg := "上传成功 " ++ v.2.1 ++
            (if is_public && !v.1 then " (无效凭证不会上传到公共池)" else "")
          (⟨entry.filename, if v.1 then .success else .warning, statusMsg⟩,
            db ++ [cred], 1)

/-- The per-file loop folded over all decoded JSON files, threading the
store and summing the success counter. -/
def uploadLoop (encrypt : String → String) (is_public : Bool) (uid : Nat) :
    List Credential → List (UploadEntry × VerifyEnv) →
      List EntryResult × List Credential × Nat
  | db, [] => ([], db, 0)
  | db, (e, env) :: rest =>
    let r := processUploadEntry encrypt is_public uid db e env
    let t := uploadLoop encrypt is_public uid r.2.1 rest
    (r.1 :: t.1, t.2.1, r.2.2 + t.2.2)

/-- The response body of the upload handler. -/
structure UploadOutcome where
  uploaded_count : Nat
  total_count : Nat
  results : List EntryResult
deriving DecidableEq, Repr

/-- Handler `upload_antigravity_credentials` (`antigravity_manage.py` lines 35-233)
over already-decoded JSON files: the force-donate setting overrides the
requested visibility, then each entry is processed independently and the
aggregate counts are returned. -/
def upload_antigravity_credentials (encrypt : String → String) (s : AppSettings)
    (is_public_req : Bool) (uid : Nat) (db : List Credential)
    (items : List (UploadEntry × VerifyEnv)) : UploadOutcome :=
  let is_public := if s.force_donate then true else is_public_req
  let t := uploadLoop encrypt is_public uid db items
  ⟨t.2.2, items.length, t.1⟩

/-- Python `int()` applied to a rational number of seconds: truncation toward
zero. -/
def pyInt (q : ℚ) : ℤ := if 0 ≤ q then ⌊q⌋ else ⌈q⌉

/-- Helper `get_cd_remaining` from `list_my_antigravity_credentials`
(`antigravity_manage.py` lines 252-258): 0 when `last_used` is unset or
`cd_seconds <= 0`, otherwise `max(0, int((last_used + cd_seconds - now)))`.
Timestamps are modelled as rational seconds. -/
def get_cd_remaining (last_used : Option ℚ) (cd_seconds : ℤ) (now : ℚ) : ℤ :=
  match last_used with
  | none => 0
  | some lu =>
    if cd_seconds ≤ 0 then 0
    else max 0 (pyInt (lu + (cd_seconds : ℚ) - now))

/-- A naive (timezone-stripped) Python `datetime`. -/
structure PyDateTime where
  year : Nat
  month : Nat
  day : Nat
  hour : Nat
  minute : Nat
  second : Nat
deriving DecidableEq, Repr

def isLeapYear (y : Nat) : Bool :=
  y % 4 == 0 && (y % 100 != 0 || y % 400 == 0)

def daysInMonth (y m : Nat) : Nat :=
  if m = 2 then (if isLeapYear y then 29 else 28)
  else if m = 4 ∨ m = 6 ∨ m = 9 ∨ m = 11 then 30
  else 31

/-- The shift `utc_date + timedelta(hours=8)` (`antigravity_manage.py` line 614): an
8-hour shift with at most one day of calendar carry. -/
def addHours8 (dt : PyDateTime) : PyDateTime :=
  let h := dt.hour + 8
  if h < 24 then { dt with hour := h }
  else
    let h2 := h - 24
    if dt.day + 1 ≤ daysInMonth dt.year dt.month then
      { dt with hour := h2, day := dt.day + 1 }
    else if dt.month = 12 then ⟨dt.year + 1, 1, 1, h2, dt.minute, dt.second⟩
    else { dt with month := dt.month + 1, day := 1, hour := h2 }

/-- Zero-padded two-digit rendering, as `strftime` does for `%m %d %H %M`. -/
def pad2 (n : Nat) : String := if n < 10 then "0" ++ toString n else toString n

/-- The rendering `strftime("%m-%d %H:%M")` (`antigravity_manage.py` line 615). -/
def fmtMonthDayHourMinute (dt : PyDateTime) : String :=
  pad2 dt.month ++ "-" ++ pad2 dt.day ++ " " ++ pad2 dt.hour ++ ":" ++ pad2 dt.minute

def digitVal (c : Char) : Nat := c.toNat - 48

def parse2 : List Char → Option (Nat × List Char)
  | a :: b :: rest =>
    if a.isDigit && b.isDigit then some (digitVal a * 10 + digitVal b, rest) else none
  | _ => none

def parse4 : List Char → Option (Nat × List Char)
  | a :: b :: c :: d :: rest =>
    if a.isDigit && b.isDigit && c.isDigit && d.isDigit then
      some (((digitVal a * 10 + digitVal b) * 10 + digitVal c) * 10 + digitVal d, rest)
    else none
  | _ => none

def expectChar (c : Char) : List Char → Option (List Char)
  | x :: rest => if x = c then some rest else none
  | [] => none

/-- Optional `:SS` seconds component (defaults to 0 when absent). -/
def parseSeconds : List Char → Option (Nat × List Char)
  | ':' :: rest =>
    match parse2 rest with
    | some (s, r) => if s < 60 then some (s, r) else none
    | none => none
  | cs => some (0, cs)

/-- Optional `.ffffff` fractional-seconds component (discarded). -/
def parseFraction : List Char → Option (List Char)
  | '.' :: rest =>
    let ds := rest.takeWhile (fun c => c.isDigit)
    if ds.isEmpty then none else some (rest.dropWhile (fun c => c.isDigit))
  | cs => some cs

/-- Optional trailing `±HH:MM` UTC-offset component. -/
def parseOffset : List Char → Bool
  | [] => true
  | c :: rest =>
    (c = '+' || c = '-') &&
      (match parse2 rest with
        | some (hh, r2) =>
          (match expectChar ':' r2 with
            | some r3 =>
              (match parse2 r3 with
                | some (mm, r4) => hh < 24 && mm < 60 && r4.isEmpty
                | none => false)
            | none => false)
        | none => false)

/-- A model of `datetime.fromisoformat` on the extended ISO-8601 shapes the quota route
feeds it: `YYYY-MM-DDTHH:MM[:SS[.ffffff]][±HH:MM]`, with the calendar fields
validated. -/
def parseIsoChars (cs : List Char) : Option PyDateTime := do
  let (y, r) ← parse4 cs
  let r ← expectChar '-' r
  let (mo, r) ← parse2 r
  let r ← expectChar '-' r
  let (d, r) ← parse2 r
  let r ← expectChar 'T' r
  let (h, r) ← parse2 r
  let r ← expectChar ':' r
  let (mi, r) ← parse2 r
  let (s, r) ← parseSeconds r
  let r ← parseFraction r
  if parseOffset r && decide (1 ≤ mo) && decide (mo ≤ 12) && decide (1 ≤ d)
      && decide (d ≤ daysInMonth y mo) && decide (h < 24) && decide (mi < 60) then
    some ⟨y, mo, d, h, mi, s⟩
  else none

/-- The `reset_time_raw.replace("Z", "+00:00")` step guarded by
`endswith("Z")` (`antigravity_manage.py` lines 609-612); in a value that
parses, `Z` can only occur at the end. -/
def zReplace (s : String) : String :=
  match s.data.getLast? with
  | some 'Z' =>
    String.mk (s.data.dropLast ++ ('+' :: '0' :: '0' :: ':' :: '0' :: '0' :: []))
  | _ => s

/-- The timestamp parse of the quota route: Z-normalisation followed by
`fromisoformat`; `none` models the caught `ValueError`. -/
def parseIsoZ (s : String) : Option PyDateTime := parseIsoChars (zReplace s).data

/-- Round half to even, as Python's `round` does on exact values. -/
def roundHalfEven (q : ℚ) : ℤ :=
  let f := ⌊q⌋
  let r := q - (f : ℚ)
  if r < 1 / 2 then f
  else if 1 / 2 < r then f + 1
  else if f % 2 = 0 then f else f + 1

/-- Python `round(x, 1)`: rounding to one decimal place. -/
def pyRound1 (q : ℚ) : ℚ := (roundHalfEven (q * 10) : ℚ) / 10

/-- One model's quota data as returned by the upstream quota fetch:
`remaining` is a fraction, `resetTime` an upstream timestamp string. -/
structure QuotaEntryIn where
  remaining : ℚ
  resetTime : String
deriving DecidableEq, Repr

/-- One model's entry of the quota route's response. -/
structure QuotaEntryOut where
  remaining : ℚ
  resetTime : String
  resetTimeRaw : String
deriving DecidableEq, Repr

/-- The per-model transformation of `get_antigravity_credential_quota`
(`antigravity_manage.py` lines 599-623): the fraction is surfaced as a
percentage rounded to one decimal, the reset time is parsed, shifted by +8
hours and formatted as `%m-%d %H:%M` (falling back to `N/A` when empty or
unparsable), and the raw timestamp is passed through. -/
def quotaEntryTransform (e : QuotaEntryIn) : QuotaEntryOut :=
  let beijing :=
    if e.resetTime = "" then "N/A"
    else
      match parseIsoZ e.resetTime with
      | some t => fmtMonthDayHourMinute (addHours8 t)
      | none => "N/A"
  ⟨pyRound1 (e.remaining * 100), beijing, e.resetTime⟩

/-- The models map of the quota route's response. -/
def get_antigravity_credential_quota (models : List (String × QuotaEntryIn)) :
    List (String × QuotaEntryOut) :=
  models.map (fun p => (p.1, quotaEntryTransform p.2))

lemma abs_sub_roundHalfEven (q : ℚ) : |q - (roundHalfEven q : ℚ)| ≤ 1 / 2 := by
  have h0 : ((⌊q⌋ : ℤ) : ℚ) ≤ q := Int.floor_le q
  have h1 : q < (⌊q⌋ : ℚ) + 1 := Int.lt_floor_add_one q
  simp only [roundHalfEven]
  split_ifs with hlt hgt heven
  · rw [abs_le]
    constructor <;> linarith
  · rw [abs_le]
    push_cast
    constructor <;> linarith
  · rw [abs_le]
    constructor <;> linarith
  · rw [abs_le]
    push_cast
    constructor <;> linarith

lemma pyRound1_close (x : ℚ) : |pyRound1 x - x| ≤ 1 / 20 := by
  have h := abs_sub_roundHalfEven (x * 10)
  have h2 : pyRound1 x - x = -((x * 10 - (roundHalfEven (x * 10) : ℚ)) / 10) := by
    simp only [pyRound1]
    ring
  rw [h2, abs_neg, abs_div, show |(10 : ℚ)| = 10 from abs_of_pos (by norm_num)]
  linarith

lemma addHours8_fields (t : PyDateTime) (ht : t.hour < 24) :
    (addHours8 t).minute = t.minute ∧ (addHours8 t).hour = (t.hour + 8) % 24 := by
  by_cases h24 : t.hour + 8 < 24
  · refine ⟨?_, ?_⟩
    · simp only [addHours8, if_pos h24]
    · simp only [addHours8, if_pos h24]
      show t.hour + 8 = (t.hour + 8) % 24
      omega
  · refine ⟨?_, ?_⟩
    · simp only [addHours8, if_neg h24]
      split
      · rfl
      · split <;> rfl
    · simp only [addHours8, if_neg h24]
      split
      · show t.hour + 8 - 24 = (t.hour + 8) % 24
        omega
      · split
        · show t.hour + 8 - 24 = (t.hour + 8) % 24
          omega
        · show t.hour + 8 - 24 = (t.hour + 8) % 24
          omega

lemma max_pyInt_eq_floor_max (x : ℚ) : max 0 (pyInt x) = ⌊max 0 x⌋ := by
  rcases le_or_lt 0 x with h | h
  · rw [pyInt, if_pos h, max_eq_right h, max_eq_right (Int.floor_nonneg.mpr h)]
  · have hc : ⌈x⌉ ≤ 0 := Int.ceil_le.mpr (by exact_mod_cast h.le)
    rw [pyInt, if_neg (not_le.mpr h), max_eq_left hc, max_eq_left h.le, Int.floor_zero]

end CatieCli

namespace CatieCli

/-- C5: for a set `last_used_at` the reported remaining cooldown is
`max(0, last_used_at + cooldown_seconds − now)` rounded down whenever
`cooldown_seconds > 0` (and 0 otherwise); it is 0 when `last_used_at` is
unset; it is never negative; and it is exactly 0 at
`last_used_at + cooldown_seconds`. -/
theorem cooldown_remaining_formula :
    ∀ (lu now : ℚ) (cd : ℤ) (l : Option ℚ),
      get_cd_remaining (some lu) cd now
        = (if cd ≤ 0 then 0 else ⌊max 0 (lu + (cd : ℚ) - now)⌋) ∧
      get_cd_remaining none cd now = 0 ∧
      0 ≤ get_cd_remaining l cd now ∧
      get_cd_remaining (some lu) cd (lu + (cd : ℚ)) = 0 := by
  intro lu now cd l
  refine ⟨?_, rfl, ?_, ?_⟩
  · by_cases h : cd ≤ 0
    · simp [get_cd_remaining, h]
    · simp only [get_cd_remaining, h, if_false]
      exact max_pyInt_eq_floor_max _
  · cases l with
    | none => simp [get_cd_remaining]
    | some lu₀ =>
      by_cases h : cd ≤ 0
      · simp [get_cd_remaining, h]
      · simp only [get_cd_remaining, h, if_false]
        exact le_max_left 0 _
  · by_cases h : cd ≤ 0
    · simp [get_cd_remaining, h]
    · have hx : lu + (cd : ℚ) - (lu + (cd : ℚ)) = 0 := by ring
      simp [get_cd_remaining, h, hx, pyInt]

/-- C2: probe classification is the stated pure function of
(status code, exception): 200 and 429 are valid with no error; 401 and 403
are invalid with the authentication-failure message; any other status is
invalid with the generic message carrying the code; an exception is invalid
with a transport message of bounded length (at most 36 characters); and the
batch path's validity bit agrees with this classification. -/
theorem probe_classification :
    classifyProbe (.status 200) = ⟨true, none⟩ ∧
    classifyProbe (.status 429) = ⟨true, none⟩ ∧
    classifyProbe (.status 401) = ⟨false, some "认证失败 (401)"⟩ ∧
    classifyProbe (.status 403) = ⟨false, some "认证失败 (403)"⟩ ∧
    (∀ c : Nat, c ≠ 200 → c ≠ 429 → c ≠ 401 → c ≠ 403 →
      classifyProbe (.status c) = ⟨false, some ("API 返回 " ++ toString c)⟩) ∧
    (∀ m : String, (classifyProbe (.exn m)).is_valid = false ∧
      ∃ s, (classifyProbe (.exn m)).error_msg = some s ∧ s.length ≤ 36) ∧
    (∀ o : ProbeOutcome, batchProbeValid o = (classifyProbe o).is_valid) := by
  refine ⟨rfl, rfl, rfl, rfl, ?_, ?_, ?_⟩
  · intro c h200 h429 h401 h403
    simp only [classifyProbe]
    rw [if_neg (by simp [h200, h429]), if_neg (by simp [h401, h403])]
  · intro m
    refine ⟨rfl, "请求异常: " ++ pyTake m 30, rfl, ?_⟩
    have hlen : (pyTake m 30).length ≤ 30 := by
      simp only [pyTake, String.length, List.length_take]
      omega
    have h6 : ("请求异常: ").length = 6 := rfl
    have : ("请求异常: " ++ pyTake m 30).length
        = ("请求异常: ").length + (pyTake m 30).length := String.length_append _ _
    omega
  · intro o
    cases o with
    | status c =>
      by_cases h1 : c = 200 ∨ c = 429
      · rcases h1 with h | h <;> subst h <;> rfl
      · push_neg at h1
        by_cases h2 : c = 401 ∨ c = 403
        · rcases h2 with h | h <;> subst h <;> rfl
        · push_neg at h2
          simp [classifyProbe, batchProbeValid, h1.1, h1.2, h2.1, h2.2]
    | exn m => rfl

/-- An active, error-free, non-public credential, as it stands before a
PATCH request. -/
def patchDemoCred : Credential :=
  ⟨7, 1, "Antigravity - a@example.com", some "a@example.com", some "rt", some "ak",
    none, none, some "proj", "oauth", false, true, none, "antigravity", some "2.5"⟩

/-- The row `patchDemoCred` after its `is_public` flag has been stored. -/
def patchDemoCredPublic : Credential := { patchDemoCred with is_public := true }

/-- C1 counterexample: a single PATCH carrying `is_public=true` and
`is_active=false` on an active, error-free credential commits a credential
that is public while inactive — the guard only inspects the pre-patch state,
so this write path persists `is_public=true` with `is_active=false`. -/
theorem public_flag_patch_counterexample :
    (update_my_antigravity_credential patchDemoCred (some true) (some false)).cred.map
        (fun c => (c.is_public, c.is_active)) = some (true, false) := by decide

/-- C1 amended: the upload path persists `is_public=true` only together with
`is_active=true` and an unset `last_error`; the PATCH path accepts
`is_public=true` only when the pre-patch state is active with no 401/403 in
`last_error` (and, when the same PATCH does not also change `is_active`, the
committed row satisfies the invariant); but the OAuth-callback path stores
the requested `is_public` and the probe verdict independently, so it (like a
PATCH that simultaneously clears `is_active`) can persist a public inactive
credential. -/
theorem public_flag_guards_amended :
    (∀ (encrypt : String → String) (uid : Nat) (email rt : String)
        (tok pid cid cs : Option String) (flag valid : Bool),
      (mkUploadCred encrypt uid email rt tok pid cid cs flag valid).is_public = true →
        (mkUploadCred encrypt uid email rt tok pid cid cs flag valid).is_active = true ∧
        (mkUploadCred encrypt uid email rt tok pid cid cs flag valid).last_error = none) ∧
    (∀ (c : Credential) (act : Option Bool) (c1 : Credential),
      update_my_antigravity_credential c (some true) act = .ok c1 →
        c.is_active = true ∧ errHasAuth c.last_error = false) ∧
    (∀ (c : Credential) (b : Bool) (c1 : Credential),
      update_my_antigravity_credential c (some b) none = .ok c1 → c1.is_public = true →
        c1.is_active = true ∧ errHasAuth c1.last_error = false) ∧
    (∀ (encrypt : String → String) (uid : Nat) (email atok rt pid tier : String)
        (req valid : Bool),
      (oauthNewCredential encrypt uid email atok rt pid req valid tier).is_public = req ∧
      (oauthNewCredential encrypt uid email atok rt pid req valid tier).is_active = valid) := by
  refine ⟨?_, ?_, ?_, fun _ _ _ _ _ _ _ _ _ => ⟨rfl, rfl⟩⟩
  · intro encrypt uid email rt tok pid cid cs flag valid h
    simp only [mkUploadCred, Bool.and_eq_true] at h
    exact ⟨h.2, rfl⟩
  · intro c act c1 h
    by_cases h1 : c.is_active
    · by_cases h2 : errHasAuth c.last_error
      · exfalso
        simp [update_my_antigravity_credential, h1, h2] at h
      · simp only [Bool.not_eq_true] at h2
        exact ⟨h1, h2⟩
    · exfalso
      simp only [Bool.not_eq_true] at h1
      simp [update_my_antigravity_credential, h1] at h
  · intro c b c1 h hpub
    cases b with
    | false =>
      simp only [update_my_antigravity_credential, Bool.false_and, Bool.false_eq_true,
        if_false, PatchResult.ok.injEq] at h
      subst h
      simp at hpub
    | true =>
      by_cases h1 : c.is_active
      · by_cases h2 : errHasAuth c.last_error
        · exfalso
          simp [update_my_antigravity_credential, h1, h2] at h
        · simp only [Bool.not_eq_true] at h2
          simp [update_my_antigravity_credential, h1, h2] at h
          subst h
          exact ⟨rfl, h2⟩
      · exfalso
        simp only [Bool.not_eq_true] at h1
        simp [update_my_antigravity_credential, h1] at h

/-- Witness for `public_flag_guards_amended`: the upload-built credential and
a plain PATCH of `is_public` on an active error-free credential both satisfy
the invariant. -/
theorem public_flag_guards_amended_witness :
    ((mkUploadCred (fun s => s) 1 "a@b" "rt" none none none none true true).is_active = true ∧
      (mkUploadCred (fun s => s) 1 "a@b" "rt" none none none none true true).last_error = none) ∧
    (patchDemoCredPublic.is_active = true ∧ errHasAuth patchDemoCredPublic.last_error = false) :=
  ⟨public_flag_guards_amended.1 (fun s => s) 1 "a@b" "rt" none none none none true true rfl,
    public_flag_guards_amended.2.2.1 patchDemoCred true patchDemoCredPublic
      (by decide) (by decide)⟩

/-- C4: with a primary discovery response lacking `currentTier` and
provisioning responses `done=false` then `done=true` carrying
`{"cloudaicompanionProject": {"id": "proj-9"}}`, the resolver returns
`proj-9` after exactly 2 provisioning calls and one 2-second pause; the
completion payload is also accepted as a bare string; and no run ever makes
more than 5 provisioning calls. -/
theorem project_id_resolution :
    fetch_antigravity_project_id ⟨200, none, none, []⟩ ⟨200, none, none, []⟩
        [⟨200, false, .pother⟩, ⟨200, true, .pobj (some "proj-9")⟩]
      = ⟨some "proj-9", 2, 2⟩ ∧
    fetch_antigravity_project_id ⟨200, none, none, []⟩ ⟨200, none, none, []⟩
        [⟨200, true, .pstr "proj-9"⟩]
      = ⟨some "proj-9", 1, 0⟩ ∧
    (∀ (p t : LoadResp) (l : List OnboardResp),
      (fetch_antigravity_project_id p t l).onboardCalls ≤ 5) := by
  refine ⟨by decide, by decide, ?_⟩
  intro p t l
  simp only [fetch_antigravity_project_id]
  split
  · simp
  · split
    · simp
    · simpa using onboardPoll_calls_le 5 l

/-- C9: on all three deletion paths (single delete, user bulk delete of
inactive credentials, admin bulk delete of inactive credentials) no
usage-log row is deleted (the log ids are preserved exactly), and every
usage-log reference to a deleted credential id has been set to null in the
resulting store. -/
theorem delete_paths_preserve_usage_logs :
    ∀ (db : DBState) (uid cid : Nat),
      ((delete_my_antigravity_credential db uid cid).logs.map (fun l => l.id)
          = db.logs.map (fun l => l.id)) ∧
      ((delete_my_inactive_antigravity_credentials db uid).logs.map (fun l => l.id)
          = db.logs.map (fun l => l.id)) ∧
      ((delete_inactive_antigravity_credentials db).logs.map (fun l => l.id)
          = db.logs.map (fun l => l.id)) ∧
      (db.creds.any (ownedCredPred uid cid) = true →
        ∀ l ∈ (delete_my_antigravity_credential db uid cid).logs,
          l.credential_id ≠ some cid) ∧
      (∀ c ∈ db.creds, inactiveOwnedPred uid c = true →
        ∀ l ∈ (delete_my_inactive_antigravity_credentials db uid).logs,
          l.credential_id ≠ some c.id) ∧
      (∀ c ∈ db.creds, inactivePred c = true →
        ∀ l ∈ (delete_inactive_antigravity_credentials db).logs,
          l.credential_id ≠ some c.id) := by
  intro db uid cid
  refine ⟨?_, ?_, ?_, ?_, ?_, ?_⟩
  · simp only [delete_my_antigravity_credential]
    split
    · exact map_nullifyLog_ids _ _
    · rfl
  · simp only [delete_my_inactive_antigravity_credentials]
    split
    · rfl
    · exact map_nullifyLog_ids _ _
  · simp only [delete_inactive_antigravity_credentials]
    split
    · rfl
    · exact map_nullifyLog_ids _ _
  · intro hfound l hl
    simp only [delete_my_antigravity_credential, hfound, if_true, List.mem_map] at hl
    obtain ⟨l0, _, rfl⟩ := hl
    exact nullifyLog_avoid (by simp) l0
  · intro c hc hpred l hl
    have hvic : c ∈ db.creds.filter (inactiveOwnedPred uid) :=
      List.mem_filter.mpr ⟨hc, hpred⟩
    have hne : (db.creds.filter (inactiveOwnedPred uid)).isEmpty = false := by
      cases hE : (db.creds.filter (inactiveOwnedPred uid)) with
      | nil => rw [hE] at hvic; cases hvic
      | cons a t => rfl
    simp only [delete_my_inactive_antigravity_credentials, hne, Bool.false_eq_true,
      if_false, List.mem_map] at hl
    obtain ⟨l0, _, rfl⟩ := hl
    exact nullifyLog_avoid (contains_of_mem (List.mem_map.mpr ⟨c, hvic, rfl⟩)) l0
  · intro c hc hpred l hl
    have hvic : c ∈ db.creds.filter inactivePred := List.mem_filter.mpr ⟨hc, hpred⟩
    have hne : (db.creds.filter inactivePred).isEmpty = false := by
      cases hE : (db.creds.filter inactivePred) with
      | nil => rw [hE] at hvic; cases hvic
      | cons a t => rfl
    simp only [delete_inactive_antigravity_credentials, hne, Bool.false_eq_true,
      if_false, List.mem_map] at hl
    obtain ⟨l0, _, rfl⟩ := hl
    exact nullifyLog_avoid (contains_of_mem (List.mem_map.mpr ⟨c, hvic, rfl⟩)) l0

/-- A two-credential store whose usage logs reference both credentials; used
to witness `delete_paths_preserve_usage_logs`. -/
def deleteDemoDB : DBState where
  creds :=
    [⟨1, 1, "a", some "a@x", some "r1", none, none, none, none, "oauth",
        false, true, none, "antigravity", none⟩,
      ⟨2, 1, "b", some "b@x", some "r2", none, none, none, none, "oauth",
        false, false, some "认证失败 (401)", "antigravity", none⟩]
  logs := [⟨10, some 1⟩, ⟨11, some 2⟩]

/-- Witness for `delete_paths_preserve_usage_logs` on `deleteDemoDB`:
deleting credential 1 nulls the reference of log 10, and the admin bulk
delete nulls the reference of log 11. -/
theorem delete_paths_preserve_usage_logs_witness :
    (UsageLogRec.mk 10 none).credential_id ≠ some 1 ∧
    (UsageLogRec.mk 11 none).credential_id ≠ some 2 := by
  refine ⟨(delete_paths_preserve_usage_logs deleteDemoDB 1 1).2.2.2.1 (by decide)
      ⟨10, none⟩ ?_, ?_⟩
  · decide
  · exact (delete_paths_preserve_usage_logs deleteDemoDB 1 1).2.2.2.2.2
      ⟨2, 1, "b", some "b@x", some "r2", none, none, none, none, "oauth",
        false, false, some "认证失败 (401)", "antigravity", none⟩
      (by decide) (by decide) ⟨11, none⟩ (by decide)

/-- C10: both export paths emit the globally configured OAuth
`client_id`/`client_secret`, and the exported document is unchanged by any
modification of the credential outside its `refresh_token`, `api_key`
(access token), `project_id` and `email` fields — in particular per-credential
client id/secret overrides are ignored. -/
theorem export_uses_global_oauth_client :
    ∀ (decrypt : String → String) (s : AppSettings) (c : Credential)
      (cidO csO errO tierO : Option String) (idN uidN : Nat)
      (nameN ctypeN atypeN : String) (pubN actN : Bool),
      (export_my_antigravity_credential decrypt s c).client_id = s.google_client_id ∧
      (export_my_antigravity_credential decrypt s c).client_secret
        = s.google_client_secret ∧
      (export_antigravity_credentials_entry decrypt s c).client_id
        = s.google_client_id ∧
      (export_antigravity_credentials_entry decrypt s c).client_secret
        = s.google_client_secret ∧
      export_my_antigravity_credential decrypt s
          { c with
            client_id := cidO, client_secret := csO, id := idN, user_id := uidN,
            name := nameN, credential_type := ctypeN, is_public := pubN,
            is_active := actN, last_error := errO, api_type := atypeN,
            model_tier := tierO }
        = export_my_antigravity_credential decrypt s c ∧
      export_antigravity_credentials_entry decrypt s
          { c with
            client_id := cidO, client_secret := csO, id := idN, user_id := uidN,
            name := nameN, credential_type := ctypeN, is_public := pubN,
            is_active := actN, last_error := errO, api_type := atypeN,
            model_tier := tierO }
        = export_antigravity_credentials_entry decrypt s c := by
  intro decrypt s c cidO csO errO tierO idN uidN nameN ctypeN atypeN pubN actN
  exact ⟨rfl, rfl, rfl, rfl, rfl, rfl⟩

/-- An active, error-free credential as the verify-all batch would load
it. -/
def batchDemoCred : Credential :=
  ⟨3, 2, "Antigravity - c@x", some "c@x", some "rt3", some "ak3", none, none,
    some "proj3", "oauth", false, true, none, "antigravity", some "2.5"⟩

/-- C6 counterexample: the verify-all batch path persists a failed
credential with `is_active=false` but leaves `last_error` untouched (here:
still unset), so the state of record carries no diagnostic for the observed
failure. -/
theorem failure_persistence_batch_counterexample :
    (batchApplyVerdict (fun s => s) batchDemoCred ⟨false, none, none⟩).is_active
        = false ∧
      (batchApplyVerdict (fun s => s) batchDemoCred ⟨false, none, none⟩).last_error
        = none := by decide

/-- C6 amended: on the single-credential verify path every refresh or probe
failure is persisted with `is_active=false` and `last_error` set to a
diagnostic before the failure is surfaced; the background verify-all batch
path, however, persists only `is_active=false` and leaves `last_error`
unchanged. -/
theorem failure_persistence_amended :
    (∀ (c : Credential) (m : String) (np : Option String) (p : ProbeOutcome),
      ((verify_my_antigravity_credential c (.exn m) np p).1.is_active = false ∧
        (verify_my_antigravity_credential c (.exn m) np p).1.last_error
          = some ("获取 token 异常: " ++ pyTake m 50)) ∧
      ((verify_my_antigravity_credential c .missing np p).1.is_active = false ∧
        (verify_my_antigravity_credential c .missing np p).1.last_error
          = some "无法获取 access token")) ∧
    (∀ (c : Credential) (t : String) (np : Option String) (p : ProbeOutcome),
      (classifyProbe p).is_valid = false →
        (verify_my_antigravity_credential c (.ok t) np p).1.is_active = false ∧
        ∃ d, (verify_my_antigravity_credential c (.ok t) np p).1.last_error = some d) ∧
    (∀ (encrypt : String → String) (c : Credential) (res : BatchVerifyRes),
      res.is_valid = false →
        (batchApplyVerdict encrypt c res).is_active = false ∧
        (batchApplyVerdict encrypt c res).last_error = c.last_error) := by
  refine ⟨fun c m np p => ⟨⟨rfl, rfl⟩, ⟨rfl, rfl⟩⟩, ?_, ?_⟩
  · intro c t np p hp
    simp only [verify_my_antigravity_credential]
    split
    all_goals try split
    all_goals first
      | exact ⟨hp, classifyProbe_invalid_has_msg p hp⟩
      | exact ⟨rfl, ⟨"无 project_id", rfl⟩⟩
  · intro encrypt c res hres
    refine ⟨?_, ?_⟩ <;>
      · simp only [batchApplyVerdict]
        split <;> split <;> simp [hres]

/-- Witness for `failure_persistence_amended`: a 403 probe on the single
path and a failed batch verdict. -/
theorem failure_persistence_amended_witness :
    ((verify_my_antigravity_credential batchDemoCred (.ok "tok") (some "proj")
        (.status 403)).1.is_active = false ∧
      ∃ d, (verify_my_antigravity_credential batchDemoCred (.ok "tok") (some "proj")
        (.status 403)).1.last_error = some d) ∧
    ((batchApplyVerdict (fun s => s) batchDemoCred ⟨false, none, some "t2"⟩).is_active
        = false ∧
      (batchApplyVerdict (fun s => s) batchDemoCred ⟨false, none, some "t2"⟩).last_error
        = batchDemoCred.last_error) :=
  ⟨failure_persistence_amended.2.1 batchDemoCred "tok" (some "proj") (.status 403)
      (by decide),
    failure_persistence_amended.2.2 (fun s => s) batchDemoCred ⟨false, none, some "t2"⟩
      rfl⟩

/-- C7: on both cache-backed reads, a cached unresolved coroutine object is
deleted and the underlying computation re-executed, and an unresolved
coroutine obtained from the cache is never the returned result: any
coroutine the decorator returns stems from the recomputation, and the
API-key user lookup never returns a coroutine at all. -/
theorem cached_coroutine_guard :
    (∀ (α : Type) (compute : PyVal α),
      (cachedWrapper (some PyVal.coro) compute).deleted = true ∧
      (cachedWrapper (some PyVal.coro) compute).recomputed = true ∧
      (cachedWrapper (some PyVal.coro) compute).result = compute) ∧
    (∀ (α : Type) (entry : Option (PyVal α)) (compute : PyVal α),
      (cachedWrapper entry compute).result = PyVal.coro →
        compute = PyVal.coro ∧ (cachedWrapper entry compute).recomputed = true) ∧
    (∀ (α : Type) (dbUser : Option α),
      (get_user_by_api_key (some PyVal.coro) dbUser).deleted = true ∧
      (get_user_by_api_key (some PyVal.coro) dbUser).dbQueried = true) ∧
    (∀ (α : Type) (entry : Option (PyVal α)) (dbUser : Option α),
      (get_user_by_api_key entry dbUser).result ≠ some PyVal.coro) := by
  refine ⟨fun α compute => ⟨rfl, rfl, rfl⟩, ?_, fun α dbUser => ⟨rfl, rfl⟩, ?_⟩
  · intro α entry compute h
    cases entry with
    | none => exact ⟨h, rfl⟩
    | some e =>
      cases e with
      | coro => exact ⟨h, rfl⟩
      | val v => simp [cachedWrapper] at h
  · intro α entry dbUser
    cases entry with
    | none => cases dbUser <;> simp [get_user_by_api_key]
    | some e =>
      cases e with
      | coro => cases dbUser <;> simp [get_user_by_api_key]
      | val v => simp [get_user_by_api_key]

/-- Witness for `cached_coroutine_guard`: a cached coroutine entry is
deleted, and a returned coroutine implies the recomputation produced it. -/
theorem cached_coroutine_guard_witness :
    (cachedWrapper (some PyVal.coro) (PyVal.val (42 : Nat))).deleted = true ∧
    (cachedWrapper (none : Option (PyVal Nat)) PyVal.coro).recomputed = true :=
  ⟨(cached_coroutine_guard.1 Nat (PyVal.val 42)).1,
    ((cached_coroutine_guard.2.1 Nat none PyVal.coro) rfl).2⟩

/-- A stored antigravity credential whose email the third upload entry
duplicates. -/
def uploadDemoExisting : Credential :=
  ⟨9, 5, "Antigravity - dup@example.com", some "dup@example.com", some "encRT9",
    none, none, none, some "p9", "oauth", false, true, none, "antigravity", some "2.5"⟩

/-- The upload of the C3 scenario: a valid entry, an entry missing
`refresh_token`, and an entry whose email duplicates `uploadDemoExisting`. -/
def uploadDemoOutcome : UploadOutcome :=
  upload_antigravity_credentials (fun s => "enc:" ++ s) ⟨"gcid", "gcs", false⟩ false 5
    [uploadDemoExisting]
    [(⟨"one.json", some ⟨true, "rt1", some "a@example.com", some "tok1", none,
        none, none, some "proj-1"⟩⟩,
      ⟨.ok "at1", none, .status 200⟩),
      (⟨"two.json", some ⟨false, "", some "b@example.com", none, none,
          none, none, none⟩⟩,
        ⟨.missing, none, .status 200⟩),
      (⟨"three.json", some ⟨true, "rt3", some "dup@example.com", none, none,
          none, none, none⟩⟩,
        ⟨.ok "at3", none, .status 200⟩)]

/-- C3: for the upload whose entries are, in order, a valid credential, an
entry missing `refresh_token`, and an entry whose email duplicates a stored
credential of the same kind, the per-entry statuses are
`[success, error, skip]` and `uploaded_count` is 1. -/
theorem upload_scenario_statuses :
    uploadDemoOutcome.results.map (fun r => r.status)
        = [.success, .error, .skip] ∧
      uploadDemoOutcome.uploaded_count = 1 := by decide

/-- C8: every model entry of the quota response surfaces the upstream
fraction as a one-decimal percentage (a multiple of 1/10 within half an ulp
of `r × 100`), renders the reset time as the +8h-shifted `month-day
hour:minute` string whenever the raw timestamp parses (the shift preserves
the minute and moves the hour by +8 modulo 24), and passes the raw upstream
timestamp through unchanged. -/
theorem quota_entry_surfacing :
    ∀ (models : List (String × QuotaEntryIn)) (name : String) (e : QuotaEntryIn),
      (name, e) ∈ models →
        (name, quotaEntryTransform e) ∈ get_antigravity_credential_quota models ∧
        (quotaEntryTransform e).resetTimeRaw = e.resetTime ∧
        (∃ k : ℤ, (quotaEntryTransform e).remaining = (k : ℚ) / 10) ∧
        |(quotaEntryTransform e).remaining - e.remaining * 100| ≤ 1 / 20 ∧
        (∀ t, parseIsoZ e.resetTime = some t →
          (quotaEntryTransform e).resetTime = fmtMonthDayHourMinute (addHours8 t)) ∧
        (∀ t : PyDateTime, t.hour < 24 →
          (addHours8 t).minute = t.minute ∧ (addHours8 t).hour = (t.hour + 8) % 24) := by
  intro models name e hmem
  refine ⟨List.mem_map.mpr ⟨(name, e), hmem, rfl⟩, rfl,
    ⟨roundHalfEven (e.remaining * 100 * 10), rfl⟩,
    pyRound1_close (e.remaining * 100), ?_, fun t ht => addHours8_fields t ht⟩
  intro t ht
  by_cases he : e.resetTime = ""
  · rw [he] at ht
    have hnone : parseIsoZ "" = none := rfl
    rw [hnone] at ht
    cases ht
  · simp [quotaEntryTransform, he, ht]

/-- The quota entry of the C8 witness scenario. -/
def quotaDemoEntry : QuotaEntryIn := ⟨3 / 4, "2025-01-31T20:30:00Z"⟩

/-- Witness for `quota_entry_surfacing`: a 75% fraction and a month-rollover
reset timestamp. -/
theorem quota_entry_surfacing_witness :
    (quotaEntryTransform quotaDemoEntry).resetTimeRaw = "2025-01-31T20:30:00Z" ∧
    (quotaEntryTransform quotaDemoEntry).resetTime = "02-01 04:30" ∧
    |(quotaEntryTransform quotaDemoEntry).remaining - (3 / 4 : ℚ) * 100| ≤ 1 / 20 := by
  have h := quota_entry_surfacing [("gemini-2.5", quotaDemoEntry)] "gemini-2.5"
    quotaDemoEntry (by simp)
  refine ⟨h.2.1, ?_, h.2.2.2.1⟩
  have h5 := h.2.2.2.2.1 ⟨2025, 1, 31, 20, 30, 0⟩ (by decide)
  rw [h5]
  decide

/-- Witness for `probe_classification` at status 500 and a long exception
message. -/
theorem probe_classification_witness :
    classifyProbe (.status 500) = ⟨false, some "API 返回 500"⟩ ∧
    (classifyProbe (.exn "connection reset by peer after a very long while")).is_valid
      = false := by
  refine ⟨?_, (probe_classification.2.2.2.2.2.1 _).1⟩
  exact probe_classification.2.2.2.2.1 500 (by decide) (by decide) (by decide) (by decide)

end CatieCli
